import Mathlib

/-!
Shallow embedding of the transaction-orchestrator logic of the
`baxter_cashier` repository (`scripts/baxter_cashier_manipulation/src/cashier.py`),
together with theorems settling the frozen claims about it.

Modelling conventions:
* Real-valued quantities of the Python program (pose coordinates, timestamps)
  are modelled as rationals (`ℚ`).
* Calls into external collaborators (pose sensing service, banknote
  recognition service, motion planner) are modelled as explicit inputs: the
  reply the service would give, `Option`-valued where the call can raise
  `rospy.ServiceException`, and a reachability oracle standing for the
  motion planner's `is_pose_reachable_by_arm`.
* Python runtime errors that the code can actually hit (unpacking `None`,
  `int(None)`, use of an unassigned local after a caught exception) are
  modelled with an explicit error type `PyError` and `Except`.
* Display/gripper/arm side effects with no bearing on the mutable state are
  recorded only where a claim needs them (the foreground/background event
  traces for the idle-animation claim).
-/

namespace BaxterCashier

/-- A physical side: used both for the robot's arms (`planner.left_arm` /
`planner.right_arm`, whose `is_left()` / `is_right()` predicates drive
`pick_banknote_from_table`) and for the two banknote tables. -/
inductive Side where
  | left : Side
  | right : Side
deriving DecidableEq

/-- `arm.is_left()` of the planner arm objects. -/
def Side.is_left : Side → Bool
  | Side.left => true
  | Side.right => false

/-- `arm.is_right()` of the planner arm objects. -/
def Side.is_right : Side → Bool
  | Side.left => false
  | Side.right => true

/-- `BaxterPose` (from `baxter_pose.py`): translation, quaternion rotation and
the creation timestamp `created` read by `pose_is_outdated`. -/
structure BaxterPose where
  transformation_x : ℚ
  transformation_y : ℚ
  transformation_z : ℚ
  rotation_x : ℚ
  rotation_y : ℚ
  rotation_z : ℚ
  rotation_w : ℚ
  created : ℚ
deriving DecidableEq

/-- Modelled from the spec: `BaxterPose.is_empty` lives in `baxter_pose.py`,
which is not among the provided sources; the spec says an "empty pose" is a
sentinel meaning no detection occurred this cycle, modelled here as all
translation and rotation components being zero. -/
def BaxterPose.is_empty (p : BaxterPose) : Bool :=
  decide (p.transformation_x = 0 ∧ p.transformation_y = 0 ∧ p.transformation_z = 0
    ∧ p.rotation_x = 0 ∧ p.rotation_y = 0 ∧ p.rotation_z = 0 ∧ p.rotation_w = 0)

/-- `pose_is_outdated` (nested in `Cashier.interact_with_customer`):
`(time.time() - pose.created) > 3`, with `now` standing for `time.time()`. -/
def pose_is_outdated (now : ℚ) (pose : BaxterPose) : Bool :=
  decide (now - pose.created > 3)

/-- `Cashier.pose_is_reachable(pose, side)`: picks the arm named by `side`
(`"left"` selects the left arm, anything else the right arm), and for a
non-empty pose delegates to the planner's `is_pose_reachable_by_arm`
(modelled by the oracle `reach`); an empty pose is never reachable. -/
def pose_is_reachable (pose : BaxterPose) (side : Side)
    (reach : BaxterPose → Side → Bool) : Bool :=
  if !pose.is_empty then reach pose side else false

/-- `Banknote`: a single banknote slot on the table. -/
structure Banknote where
  pose : BaxterPose
  is_available : Bool
deriving DecidableEq

/-- `BanknotesOnTable.get_next_available_banknote`: scan the list in order,
flip the first available slot to unavailable and return it; `None` when no
slot is available.  The pair is (returned banknote, updated slot list). -/
def get_next_available_banknote : List Banknote → Option Banknote × List Banknote
  | [] => (none, [])
  | b :: rest =>
    if b.is_available then
      (some { b with is_available := false }, { b with is_available := false } :: rest)
    else
      ((get_next_available_banknote rest).1, b :: (get_next_available_banknote rest).2)

/-- `BanknotesOnTable.reset_availability_for_all_banknotes`: set every slot's
`is_available` back to `True`. -/
def reset_availability_for_all_banknotes (l : List Banknote) : List Banknote :=
  l.map (fun b => { b with is_available := true })

/-- `static_x_to_be_added = 0.10  # 10cm` in
`BanknotesOnTable._calculate_pose_of_remaining_poses`. -/
def static_x_to_be_added : ℚ := 1/10

/-- One pass of the loop body of `_calculate_pose_of_remaining_poses`:
deep-copy the last banknote, add the fixed offset to its `transformation_x`,
and append it. -/
def append_offset_banknote (l : List Banknote) : List Banknote :=
  match l.getLast? with
  | none => l
  | some last =>
      l ++ [{ last with
              pose := { last.pose with
                        transformation_x :=
                          last.pose.transformation_x + static_x_to_be_added } }]

/-- `BanknotesOnTable._calculate_pose_of_remaining_poses`: repeat the
append-with-offset step `num_of_remaining_banknotes` times. -/
def calculate_pose_of_remaining_poses : Nat → List Banknote → List Banknote
  | 0, l => l
  | n + 1, l => calculate_pose_of_remaining_poses n (append_offset_banknote l)

/-- `BanknotesOnTable`: the banknotes on one side of the table. -/
structure BanknotesOnTable where
  table_side : Side
  banknotes : List Banknote
deriving DecidableEq

/-- `BanknotesOnTable.__init__`: start from the single calibrated banknote
(available) and synthesize the remaining slots. -/
def BanknotesOnTable.make (initial_pose : BaxterPose) (table_side : Side)
    (num_of_remaining_banknotes : Nat) : BanknotesOnTable :=
  { table_side := table_side,
    banknotes := calculate_pose_of_remaining_poses num_of_remaining_banknotes
      [{ pose := initial_pose, is_available := true }] }

/-- Python runtime errors the orchestrator can actually raise. -/
inductive PyError where
  /-- `TypeError` at `int(banknote_value)` in `take_money_from_customer` when
  `get_banknote_value` returned `None`; records the recognition image that was
  already shown before the crash. -/
  | typeErrorIntOfNone : String → PyError
  /-- `UnboundLocalError` in `get_pose_from_space`: after a caught
  `ServiceException` the locals `left_hand`/`right_hand` were never assigned
  but are read unconditionally. -/
  | unboundLocal : PyError
  /-- `TypeError` at `customer_hand_pose, baxter_arm = self.customer_last_pose`
  in `give_money_to_customer` when `customer_last_pose` is still `None`. -/
  | noneUnpack : PyError
deriving DecidableEq

/-- The mutable state of a `Cashier` instance that the interaction loop reads
and writes: the ledger `amount_due`, the cached `customer_last_pose`
(pose and arm of the last successful collect), and the two banknote tables. -/
structure CashierState where
  amount_due : Int
  customer_last_pose : Option (BaxterPose × Side)
  banknotes_table_left : BanknotesOnTable
  banknotes_table_right : BanknotesOnTable
deriving DecidableEq

/-- The state fields set up by `Cashier.__init__`: `amount_due = 3` (the
hard-coded testing value), `customer_last_pose = None`, and the two calibrated
tables. -/
def cashier_init (lt rt : BanknotesOnTable) : CashierState :=
  { amount_due := 3,
    customer_last_pose := none,
    banknotes_table_left := lt,
    banknotes_table_right := rt }

/-- Outcome of `Cashier.pick_banknote_from_table(arm)`: the banknote taken (if
any), the updated tables, and whether the `"No available banknotes on the
table..."` log line was printed (the pick sub-steps are skipped exactly in
that case). -/
structure PickOutcome where
  picked : Option Banknote
  banknotes_table_left : BanknotesOnTable
  banknotes_table_right : BanknotesOnTable
  logged_no_banknote : Bool
deriving DecidableEq

/-- `Cashier.pick_banknote_from_table(arm)`: choose the table matching the
arm's side, take the next available banknote from it; when one is found the
arm motion/grip sequence runs, otherwise only the log line is printed. -/
def pick_banknote_from_table (lt rt : BanknotesOnTable) (arm : Side) : PickOutcome :=
  if arm.is_left then
    { picked := (get_next_available_banknote lt.banknotes).1,
      banknotes_table_left := { lt with banknotes := (get_next_available_banknote lt.banknotes).2 },
      banknotes_table_right := rt,
      logged_no_banknote := (get_next_available_banknote lt.banknotes).1.isNone }
  else
    { picked := (get_next_available_banknote rt.banknotes).1,
      banknotes_table_left := lt,
      banknotes_table_right := { rt with banknotes := (get_next_available_banknote rt.banknotes).2 },
      logged_no_banknote := (get_next_available_banknote rt.banknotes).1.isNone }

/-- Outcome of `Cashier.give_money_to_customer`. -/
structure DispenseResult where
  state : CashierState
  picked : Option Banknote
  logged_no_banknote : Bool
deriving DecidableEq

/-- `Cashier.give_money_to_customer`: unpack `customer_last_pose` (a
`TypeError` when it is still `None`), pick a banknote from the table matching
the cached arm, move to the cached customer pose, open the gripper, and add
the hard-coded `money_to_give_back = 1` to `amount_due` — unconditionally,
whether or not a banknote was actually picked. -/
def give_money_to_customer (s : CashierState) : Except PyError DispenseResult :=
  match s.customer_last_pose with
  | none => Except.error PyError.noneUnpack
  | some (_customer_hand_pose, baxter_arm) =>
    let money_to_give_back : Int := 1
    let pick := pick_banknote_from_table s.banknotes_table_left s.banknotes_table_right baxter_arm
    Except.ok
      { state :=
          { s with
            banknotes_table_left := pick.banknotes_table_left,
            banknotes_table_right := pick.banknotes_table_right,
            amount_due := s.amount_due + money_to_give_back },
        picked := pick.picked,
        logged_no_banknote := pick.logged_no_banknote }

/-- `Cashier.get_banknote_value`: the service reply is the recognised amount
(1, 5, or the sentinel -1); a `ServiceException` is caught, logged, and the
function returns `None`.  `service_reply = none` models the exception. -/
def get_banknote_value (service_reply : Option Int) : Option Int :=
  match service_reply with
  | some banknote_amount => some banknote_amount
  | none => none

/-- `Cashier.take_money_from_customer(pose, arm)` after the grasp sequence,
applied to the value returned by `get_banknote_value`.  Python semantics of
the branch: `banknote_value != -1` is also true for `None`, so on a failed
service call the code shows the one-bill image and then raises `TypeError`
at `int(banknote_value)`; only the sentinel `-1` reaches the
`unable_to_recognise.png` branch.  On success the ledger is decremented and
`customer_last_pose` is cached.  Returns the new state and the image shown. -/
def take_money_from_customer (s : CashierState) (pose : BaxterPose) (arm : Side)
    (banknote_value : Option Int) : Except PyError (CashierState × String) :=
  if banknote_value ≠ some (-1) then
    let image := if banknote_value = some 5 then ("five_bill_recognised.png")
                 else ("one_bill_recognised.png")
    match banknote_value with
    | some v =>
        Except.ok
          ({ s with
             amount_due := s.amount_due - v,
             customer_last_pose := some (pose, arm) }, image)
    | none => Except.error (PyError.typeErrorIntOfNone image)
  else
    Except.ok (s, ("unable_to_recognise.png"))

/-- One raw hand reading as returned by the `get_user_pose` service:
translation and quaternion. -/
structure HandReading where
  tx : ℚ
  ty : ℚ
  tz : ℚ
  rx : ℚ
  ry : ℚ
  rz : ℚ
  rw : ℚ
deriving DecidableEq

/-- Building a `BaxterPose` from a service reading; `created` is the
construction timestamp recorded by the `BaxterPose` constructor. -/
def baxter_pose_of_reading (h : HandReading) (created : ℚ) : BaxterPose :=
  { transformation_x := h.tx, transformation_y := h.ty, transformation_z := h.tz,
    rotation_x := h.rx, rotation_y := h.ry, rotation_z := h.rz, rotation_w := h.rw,
    created := created }

/-- `Cashier.get_pose_from_space`: on success the two service calls yield the
left and right hand readings (the body-part swap is already folded into which
reading stands for which hand) and both poses are built; when the service
call raises (modelled by `service_reply = none`) the exception is caught and
printed, after which the code reads the never-assigned local `left_hand` and
raises `UnboundLocalError`. -/
def get_pose_from_space (service_reply : Option (HandReading × HandReading))
    (created : ℚ) : Except PyError (BaxterPose × BaxterPose) :=
  match service_reply with
  | none => Except.error PyError.unboundLocal
  | some (left_hand, right_hand) =>
      Except.ok (baxter_pose_of_reading left_hand created,
                 baxter_pose_of_reading right_hand created)

/-- The per-iteration inputs of the interaction loop that come from outside
the `Cashier` state: the current time, the hand-pose service reply (and the
creation time stamped on the built poses), the planner's reachability oracle,
and the banknote-recognition service reply. -/
structure IterInput where
  now : ℚ
  pose_created : ℚ
  service_poses : Option (HandReading × HandReading)
  reach : BaxterPose → Side → Bool
  recognition_reply : Option Int

/-- The action selected by one iteration of `interact_with_customer`. -/
inductive IterAction where
  | dispense : IterAction
  | resample : IterAction
  | collect : BaxterPose → Side → IterAction
  | unreachable_message : IterAction
deriving DecidableEq

/-- The branch structure of the loop body of `Cashier.interact_with_customer`
viewed as an action selector: a negative ledger dispenses unconditionally;
otherwise both-poses-stale re-samples; otherwise the customer's left-hand
pose is tried with the robot's right arm, then the right-hand pose with the
left arm; otherwise the failure message is printed. -/
def select_action (amount_due : Int) (now : ℚ) (left_pose right_pose : BaxterPose)
    (reach : BaxterPose → Side → Bool) : IterAction :=
  if amount_due < 0 then
    IterAction.dispense
  else if pose_is_outdated now left_pose && pose_is_outdated now right_pose then
    IterAction.resample
  else if pose_is_reachable left_pose Side.right reach then
    IterAction.collect left_pose Side.right
  else if pose_is_reachable right_pose Side.left reach then
    IterAction.collect right_pose Side.left
  else
    IterAction.unreachable_message

/-- One iteration of the `while self.amount_due != 0` loop of
`Cashier.interact_with_customer`: dispense when the ledger is negative
(before any sensing); otherwise sense both hand poses (which itself can
crash on a service failure), skip the iteration when both are outdated,
and collect from the first reachable hand with the cross-mapped arm. -/
def interact_with_customer_step (s : CashierState) (inp : IterInput) :
    Except PyError CashierState :=
  if s.amount_due < 0 then
    (give_money_to_customer s).map DispenseResult.state
  else
    match get_pose_from_space inp.service_poses inp.pose_created with
    | Except.error e => Except.error e
    | Except.ok (left_pose, right_pose) =>
      if pose_is_outdated inp.now left_pose && pose_is_outdated inp.now right_pose then
        Except.ok s
      else if pose_is_reachable left_pose Side.right inp.reach then
        (take_money_from_customer s left_pose Side.right
          (get_banknote_value inp.recognition_reply)).map Prod.fst
      else if pose_is_reachable right_pose Side.left inp.reach then
        (take_money_from_customer s right_pose Side.left
          (get_banknote_value inp.recognition_reply)).map Prod.fst
      else
        Except.ok s

/-- The set-up `interact_with_customer` performs before entering its loop:
reset the availability of the banknotes on both tables. -/
def interact_with_customer_start (s : CashierState) : CashierState :=
  { s with
    banknotes_table_left :=
      { s.banknotes_table_left with
        banknotes := reset_availability_for_all_banknotes s.banknotes_table_left.banknotes },
    banknotes_table_right :=
      { s.banknotes_table_right with
        banknotes := reset_availability_for_all_banknotes s.banknotes_table_right.banknotes } }

/-! ### Event traces for the background-animation claim -/

/-- Foreground events of `take_money_from_customer` / `get_banknote_value`,
in program order. -/
inductive FgEvent where
  | move_to_position : FgEvent
  | open_gripper : FgEvent
  | close_gripper : FgEvent
  | move_hand_to_head_camera : FgEvent
  /-- `run_nonblocking(make_eyes_animated_reading_banknote)`. -/
  | start_background_task : FgEvent
  /-- a write to `banknote_recognition_task_completed`. -/
  | set_flag : Bool → FgEvent
  | wait_for_service : FgEvent
  | call_service : FgEvent
  | print_service_failed : FgEvent
  | show_image : String → FgEvent
  | ledger_subtract : FgEvent
  | set_customer_last_pose : FgEvent
  | leave_banknote_to_the_table : FgEvent
  | show_eyes_normal : FgEvent
  | set_neutral : FgEvent
deriving DecidableEq

/-- Events of `take_money_from_customer` before the recognition call: the
grasp sequence followed by starting the background animation thread. -/
def take_money_pre_events : List FgEvent :=
  [FgEvent.move_to_position, FgEvent.open_gripper, FgEvent.close_gripper,
   FgEvent.move_hand_to_head_camera, FgEvent.start_background_task]

/-- Events of `get_banknote_value` in program order, for a successful and a
failing service call: the completion flag is cleared first (inside this
function, i.e. after the caller has already started the background task),
then the blocking call runs, and the flag is set on both exits. -/
def get_banknote_value_events (service_ok : Bool) : List FgEvent :=
  [FgEvent.set_flag false, FgEvent.wait_for_service, FgEvent.call_service]
  ++ (if service_ok then [FgEvent.set_flag true]
      else [FgEvent.print_service_failed, FgEvent.set_flag true])

/-- Events of `take_money_from_customer` after `get_banknote_value` returns,
as a function of the returned value: the recognised/unrecognised image, then
(for an actual value) the ledger update sequence; for a `None` reply the
`TypeError` at `int(None)` aborts everything after the image. -/
def take_money_post_events (banknote_value : Option Int) : List FgEvent :=
  if banknote_value = some (-1) then
    [FgEvent.show_image ("unable_to_recognise.png"),
     FgEvent.show_eyes_normal, FgEvent.set_neutral]
  else
    [FgEvent.show_image (if banknote_value = some 5 then ("five_bill_recognised.png")
                         else ("one_bill_recognised.png"))]
    ++ (match banknote_value with
        | some _ => [FgEvent.ledger_subtract, FgEvent.set_customer_last_pose,
                     FgEvent.leave_banknote_to_the_table,
                     FgEvent.show_eyes_normal, FgEvent.set_neutral]
        | none => [])

/-- The full foreground event trace of one `take_money_from_customer` call,
as a function of the recognition service reply. -/
def take_money_events (banknote_value : Option Int) : List FgEvent :=
  take_money_pre_events
  ++ get_banknote_value_events banknote_value.isSome
  ++ take_money_post_events banknote_value

/-- The five display updates of `make_eyes_animated_reading_banknote`, in
order. -/
def eyes_animation_images : List String :=
  [("looking_eyes.png"), ("looking_right_eyes.png"), ("looking_left_eyes.png"),
   ("looking_right_eyes.png"), ("looking_left_eyes.png")]

/-- The loop of `make_eyes_animated_reading_banknote`: before each step the
completion flag is read (`flag i` is the value read before step `i`; the flag
is concurrently written by the foreground), and the step runs only when the
read was `false`. -/
def run_eyes_steps : List String → (Nat → Bool) → Nat → List String
  | [], _, _ => []
  | f :: fs, flag, i =>
    if flag i = false then f :: run_eyes_steps fs flag (i + 1)
    else run_eyes_steps fs flag (i + 1)

/-- `Cashier.make_eyes_animated_reading_banknote` run against the sequence of
flag values it reads: the list of display updates actually performed. -/
def make_eyes_animated_reading_banknote (flag : Nat → Bool) : List String :=
  run_eyes_steps eyes_animation_images flag 0

/-! ### Iterated inventory operations (for the monotonicity claim) -/

/-- The slot list after `k` successive calls of `get_next_available_banknote`
starting from `l`. -/
def takeSeq (l : List Banknote) : Nat → List Banknote
  | 0 => l
  | k + 1 => (get_next_available_banknote (takeSeq l k)).2

/-- The banknote returned by the `(k+1)`-st call of
`get_next_available_banknote` (0-indexed: call `k` runs on `takeSeq l k`). -/
def takeOut (l : List Banknote) (k : Nat) : Option Banknote :=
  (get_next_available_banknote (takeSeq l k)).1

/-- Number of available slots. -/
def availCount (l : List Banknote) : Nat :=
  (l.filter (fun b => b.is_available)).length

/-! ### Concrete instances used by the claim witnesses and counterexamples -/

/-- Pose of the first banknote calibrated on the right table (sample values). -/
def right_note_pose_1 : BaxterPose :=
  { transformation_x := 5, transformation_y := 3, transformation_z := 0,
    rotation_x := 0, rotation_y := 0, rotation_z := 0, rotation_w := 1, created := 0 }

/-- Pose of the second banknote on the right table (sample values). -/
def right_note_pose_2 : BaxterPose :=
  { transformation_x := 6, transformation_y := 3, transformation_z := 0,
    rotation_x := 0, rotation_y := 0, rotation_z := 0, rotation_w := 1, created := 0 }

/-- Pose of the single banknote on the left table (sample values). -/
def left_note_pose_1 : BaxterPose :=
  { transformation_x := -5, transformation_y := 3, transformation_z := 0,
    rotation_x := 0, rotation_y := 0, rotation_z := 0, rotation_w := 1, created := 0 }

/-- A one-slot left table. -/
def table_left_example : BanknotesOnTable :=
  { table_side := Side.left,
    banknotes := [{ pose := left_note_pose_1, is_available := true }] }

/-- A two-slot right table, both slots available. -/
def table_right_example : BanknotesOnTable :=
  { table_side := Side.right,
    banknotes := [{ pose := right_note_pose_1, is_available := true },
                  { pose := right_note_pose_2, is_available := true }] }

/-- A non-empty customer hand pose (sample values, created at time 0). -/
def sample_hand_pose : BaxterPose :=
  { transformation_x := 6, transformation_y := 2, transformation_z := 1,
    rotation_x := 0, rotation_y := 0, rotation_z := 0, rotation_w := 1, created := 0 }

/-- C1 concrete state: a fresh cashier. -/
def c1_state : CashierState := cashier_init table_left_example table_right_example

/-- C2 concrete right table with every slot already taken. -/
def c2_exhausted_right_table : BanknotesOnTable :=
  { table_side := Side.right,
    banknotes := [{ pose := right_note_pose_1, is_available := false },
                  { pose := right_note_pose_2, is_available := false }] }

/-- C2 concrete state: Baxter owes 2 and the right-side inventory is empty. -/
def c2_state : CashierState :=
  { amount_due := -2,
    customer_last_pose := some (sample_hand_pose, Side.right),
    banknotes_table_left := table_left_example,
    banknotes_table_right := c2_exhausted_right_table }

/-- C3 concrete state: a fresh cashier (positive ledger). -/
def c3_state : CashierState := cashier_init table_left_example table_right_example

/-- C3 concrete iteration input: the hand-pose service call fails. -/
def c3_input : IterInput :=
  { now := 10, pose_created := 10, service_poses := none,
    reach := fun _ _ => true, recognition_reply := some 1 }

/-- C4 concrete state with a negative ledger. -/
def c4_state : CashierState :=
  { amount_due := -1,
    customer_last_pose := some (sample_hand_pose, Side.right),
    banknotes_table_left := table_left_example,
    banknotes_table_right := table_right_example }

/-- C4 concrete iteration input in which both hand poses are present, fresh and
reachable: the dispense branch must win anyway. -/
def c4_input : IterInput :=
  { now := 1, pose_created := 0,
    service_poses :=
      some ({ tx := 6, ty := 2, tz := 1, rx := 0, ry := 0, rz := 0, rw := 1 },
            { tx := -6, ty := 2, tz := 1, rx := 0, ry := 0, rz := 0, rw := 1 }),
    reach := fun _ _ => true, recognition_reply := some 1 }

/-- C5 concrete left-hand pose: non-empty and fresh at time 1. -/
def c5_left_pose : BaxterPose :=
  { transformation_x := 6, transformation_y := 2, transformation_z := 1,
    rotation_x := 0, rotation_y := 0, rotation_z := 0, rotation_w := 1, created := 0 }

/-- C5 concrete right-hand pose: the all-zero "no detection" sentinel. -/
def c5_right_pose : BaxterPose :=
  { transformation_x := 0, transformation_y := 0, transformation_z := 0,
    rotation_x := 0, rotation_y := 0, rotation_z := 0, rotation_w := 0, created := 0 }

/-- C5 concrete reachability oracle: everything reachable. -/
def c5_reach : BaxterPose → Side → Bool := fun _ _ => true

/-- C6 concrete pose created at time 7 (age exactly 3 at time 10). -/
def c6_pose : BaxterPose :=
  { transformation_x := 6, transformation_y := 2, transformation_z := 1,
    rotation_x := 0, rotation_y := 0, rotation_z := 0, rotation_w := 1, created := 7 }

/-- C7 concrete two-slot inventory with distinct slot poses, all available. -/
def c7_inventory : List Banknote :=
  [{ pose := { transformation_x := 0, transformation_y := 0, transformation_z := 0,
               rotation_x := 0, rotation_y := 0, rotation_z := 0, rotation_w := 1,
               created := 0 },
     is_available := true },
   { pose := { transformation_x := 1, transformation_y := 0, transformation_z := 0,
               rotation_x := 0, rotation_y := 0, rotation_z := 0, rotation_w := 1,
               created := 0 },
     is_available := true }]

/-- C8 left-hand reading presented by the customer. -/
def c8_hand_left : HandReading :=
  { tx := 6, ty := 2, tz := 1, rx := 0, ry := 0, rz := 0, rw := 1 }

/-- C8 right-hand reading presented by the customer. -/
def c8_hand_right : HandReading :=
  { tx := -6, ty := 2, tz := 1, rx := 0, ry := 0, rz := 0, rw := 1 }

/-- The customer's left-hand pose as built by `get_pose_from_space` in the C8
scenario (created at time 0). -/
def c8_left_pose : BaxterPose := baxter_pose_of_reading c8_hand_left 0

/-- C8 iteration input: fresh reachable left hand, recognition returns 5. -/
def c8_input : IterInput :=
  { now := 1, pose_created := 0,
    service_poses := some (c8_hand_left, c8_hand_right),
    reach := fun _ _ => true, recognition_reply := some 5 }

/-- C8 start state: a fresh cashier (`amount_due = 3`) after the availability
reset performed at the top of `interact_with_customer`. -/
def c8_s0 : CashierState :=
  interact_with_customer_start (cashier_init table_left_example table_right_example)

/-- C8 state after the collect: ledger 3 - 5 = -2, handoff context cached. -/
def c8_s1 : CashierState :=
  { amount_due := -2,
    customer_last_pose := some (c8_left_pose, Side.right),
    banknotes_table_left := table_left_example,
    banknotes_table_right := table_right_example }

/-- C8 state after the first dispense: ledger -1, first right slot taken. -/
def c8_s2 : CashierState :=
  { amount_due := -1,
    customer_last_pose := some (c8_left_pose, Side.right),
    banknotes_table_left := table_left_example,
    banknotes_table_right :=
      { table_side := Side.right,
        banknotes := [{ pose := right_note_pose_1, is_available := false },
                      { pose := right_note_pose_2, is_available := true }] } }

/-- C8 state after the second dispense: ledger 0, both right slots taken. -/
def c8_s3 : CashierState :=
  { amount_due := 0,
    customer_last_pose := some (c8_left_pose, Side.right),
    banknotes_table_left := table_left_example,
    banknotes_table_right :=
      { table_side := Side.right,
        banknotes := [{ pose := right_note_pose_1, is_available := false },
                      { pose := right_note_pose_2, is_available := false }] } }

/-- C10 concrete state: negative ledger but no collect has ever succeeded. -/
def c10_state : CashierState :=
  { amount_due := -3,
    customer_last_pose := none,
    banknotes_table_left := table_left_example,
    banknotes_table_right := table_right_example }

/-- C10 concrete iteration input (its content is irrelevant to the crash). -/
def c10_input : IterInput :=
  { now := 0, pose_created := 0, service_poses := none,
    reach := fun _ _ => false, recognition_reply := none }

/-! ### Lemmas about the banknote inventory -/

lemma gnab_nil : get_next_available_banknote [] = (none, []) := rfl

lemma gnab_cons_of_avail {b : Banknote} (rest : List Banknote)
    (hb : b.is_available = true) :
    get_next_available_banknote (b :: rest) =
      (some { b with is_available := false },
       { b with is_available := false } :: rest) := by
  simp [get_next_available_banknote, hb]

lemma gnab_cons_of_taken {b : Banknote} (rest : List Banknote)
    (hb : b.is_available = false) :
    get_next_available_banknote (b :: rest) =
      ((get_next_available_banknote rest).1,
       b :: (get_next_available_banknote rest).2) := by
  simp [get_next_available_banknote, hb]

lemma gnab_map_pose (l : List Banknote) :
    ((get_next_available_banknote l).2).map Banknote.pose = l.map Banknote.pose := by
  induction l with
  | nil => rfl
  | cons b rest ih =>
    cases hb : b.is_available
    · rw [gnab_cons_of_taken rest hb]
      simp [ih]
    · rw [gnab_cons_of_avail rest hb]
      simp

lemma gnab_fst_eq_find (l : List Banknote) :
    (get_next_available_banknote l).1 =
      (l.find? (fun b => b.is_available)).map (fun b => { b with is_available := false }) := by
  induction l with
  | nil => rfl
  | cons b rest ih =>
    cases hb : b.is_available
    · rw [gnab_cons_of_taken rest hb, List.find?_cons_of_neg _ (by simp [hb]), ih]
    · rw [gnab_cons_of_avail rest hb, List.find?_cons_of_pos _ (by simp [hb])]
      simp

lemma gnab_none_iff (l : List Banknote) :
    (get_next_available_banknote l).1 = none ↔ ∀ b ∈ l, b.is_available = false := by
  rw [gnab_fst_eq_find]
  simp [List.find?_eq_none]

lemma gnab_snd_of_none (l : List Banknote)
    (h : (get_next_available_banknote l).1 = none) :
    (get_next_available_banknote l).2 = l := by
  induction l with
  | nil => rfl
  | cons b rest ih =>
    cases hb : b.is_available
    · rw [gnab_cons_of_taken rest hb] at h ⊢
      have h' : (get_next_available_banknote rest).1 = none := h
      show b :: (get_next_available_banknote rest).2 = b :: rest
      rw [ih h']
    · rw [gnab_cons_of_avail rest hb] at h
      simp at h

lemma gnab_snd_getElem_of_taken (l : List Banknote) (j : Nat) (bj : Banknote)
    (hj : l[j]? = some bj) (hb : bj.is_available = false) :
    ((get_next_available_banknote l).2)[j]? = some bj := by
  induction l generalizing j with
  | nil => simp at hj
  | cons b rest ih =>
    cases hbav : b.is_available
    · rw [gnab_cons_of_taken rest hbav]
      cases j with
      | zero => simpa using hj
      | succ j' =>
        show (b :: (get_next_available_banknote rest).2)[j' + 1]? = some bj
        rw [List.getElem?_cons_succ]
        exact ih j' (by simpa using hj)
    · rw [gnab_cons_of_avail rest hbav]
      cases j with
      | zero =>
        simp only [List.getElem?_cons_zero, Option.some.injEq] at hj
        rw [← hj] at hb
        simp [hbav] at hb
      | succ j' =>
        show ({ b with is_available := false } :: rest)[j' + 1]? = some bj
        rw [List.getElem?_cons_succ]
        simpa using hj

lemma gnab_some_spec (l : List Banknote) (bk : Banknote)
    (h : (get_next_available_banknote l).1 = some bk) :
    bk.is_available = false ∧
    ∃ (i : Nat) (bprev : Banknote), l[i]? = some bprev ∧ bprev.is_available = true ∧
      bprev.pose = bk.pose ∧
      ((get_next_available_banknote l).2)[i]? = some bk := by
  induction l with
  | nil => simp [gnab_nil] at h
  | cons b rest ih =>
    cases hb : b.is_available
    · rw [gnab_cons_of_taken rest hb] at h
      have h' : (get_next_available_banknote rest).1 = some bk := h
      obtain ⟨hav, i, bprev, hi1, hi2, hi3, hi4⟩ := ih h'
      refine ⟨hav, i + 1, bprev, ?_, hi2, hi3, ?_⟩
      · rw [List.getElem?_cons_succ]
        exact hi1
      · rw [gnab_cons_of_taken rest hb]
        show (b :: (get_next_available_banknote rest).2)[i + 1]? = some bk
        rw [List.getElem?_cons_succ]
        exact hi4
    · rw [gnab_cons_of_avail rest hb] at h
      have hbk : bk = { b with is_available := false } := by
        have h' : some { b with is_available := false } = some bk := h
        exact (Option.some.inj h').symm
      refine ⟨by rw [hbk], 0, b, by simp, hb, by rw [hbk], ?_⟩
      rw [gnab_cons_of_avail rest hb]
      show ({ b with is_available := false } :: rest)[0]? = some bk
      rw [List.getElem?_cons_zero, hbk]

lemma availCount_cons (b : Banknote) (l : List Banknote) :
    availCount (b :: l) = (if b.is_available then 1 else 0) + availCount l := by
  cases hb : b.is_available
  · simp [availCount, List.filter_cons, hb]
  · simp [availCount, List.filter_cons, hb]
    omega

lemma gnab_some_availCount (l : List Banknote) (bk : Banknote)
    (h : (get_next_available_banknote l).1 = some bk) :
    availCount ((get_next_available_banknote l).2) + 1 = availCount l := by
  induction l with
  | nil => simp [gnab_nil] at h
  | cons b rest ih =>
    cases hb : b.is_available
    · rw [gnab_cons_of_taken rest hb] at h
      have h' : (get_next_available_banknote rest).1 = some bk := h
      have hih := ih h'
      rw [gnab_cons_of_taken rest hb]
      show availCount (b :: (get_next_available_banknote rest).2) + 1
        = availCount (b :: rest)
      rw [availCount_cons, availCount_cons, hb]
      simp only [Bool.false_eq_true, if_false]
      omega
    · rw [gnab_cons_of_avail rest hb]
      show availCount ({ b with is_available := false } :: rest) + 1
        = availCount (b :: rest)
      rw [availCount_cons, availCount_cons, hb]
      have hproj : ({ b with is_available := false } : Banknote).is_available = false := rfl
      rw [hproj]
      simp only [Bool.false_eq_true, if_false, if_true]
      omega

lemma availCount_eq_zero_iff (l : List Banknote) :
    availCount l = 0 ↔ ∀ b ∈ l, b.is_available = false := by
  simp [availCount, List.length_eq_zero, List.filter_eq_nil_iff]

lemma takeSeq_map_pose (l : List Banknote) (k : Nat) :
    (takeSeq l k).map Banknote.pose = l.map Banknote.pose := by
  induction k with
  | zero => rfl
  | succ k ih =>
    show ((get_next_available_banknote (takeSeq l k)).2).map Banknote.pose
      = l.map Banknote.pose
    rw [gnab_map_pose, ih]

lemma takeSeq_availCount_le (l : List Banknote) (k : Nat) :
    availCount (takeSeq l k) ≤ availCount l - k := by
  induction k with
  | zero => simp [takeSeq]
  | succ k ih =>
    show availCount ((get_next_available_banknote (takeSeq l k)).2)
      ≤ availCount l - (k + 1)
    cases hfst : (get_next_available_banknote (takeSeq l k)).1 with
    | none =>
      rw [gnab_snd_of_none _ hfst]
      have hz : availCount (takeSeq l k) = 0 :=
        (availCount_eq_zero_iff _).mpr ((gnab_none_iff _).mp hfst)
      omega
    | some bk =>
      have := gnab_some_availCount _ bk hfst
      omega

lemma takeSeq_persist (l : List Banknote) (j i : Nat) (b : Banknote)
    (hb : b.is_available = false) (h : (takeSeq l j)[i]? = some b) :
    ∀ d, (takeSeq l (j + d))[i]? = some b := by
  intro d
  induction d with
  | zero => exact h
  | succ d ih =>
    show ((get_next_available_banknote (takeSeq l (j + d))).2)[i]? = some b
    exact gnab_snd_getElem_of_taken (takeSeq l (j + d)) i b ih hb

lemma takeOut_pose_injective (l : List Banknote)
    (hnd : (l.map Banknote.pose).Nodup) (j k : Nat) (hjk : j < k)
    (b b' : Banknote) (hj : takeOut l j = some b) (hk : takeOut l k = some b') :
    b.pose ≠ b'.pose := by
  obtain ⟨hbav, i, bprev, hpre, hpav, hppose, hpost⟩ := gnab_some_spec _ b hj
  have hpers : (takeSeq l k)[i]? = some b := by
    have hstep := takeSeq_persist l (j + 1) i b hbav hpost (k - (j + 1))
    have harith : j + 1 + (k - (j + 1)) = k := by omega
    rwa [harith] at hstep
  obtain ⟨hbav', i', bprev', hpre', hpav', hppose', hpost'⟩ := gnab_some_spec _ b' hk
  intro hpose
  have hii : i ≠ i' := by
    intro he
    subst he
    rw [hpers] at hpre'
    have hbb : b = bprev' := Option.some.inj hpre'
    rw [← hbb] at hpav'
    rw [hbav] at hpav'
    exact Bool.noConfusion hpav'
  have hmk : (takeSeq l k).map Banknote.pose = l.map Banknote.pose := takeSeq_map_pose l k
  have h1 : (l.map Banknote.pose)[i]? = some b.pose := by
    rw [← hmk, List.getElem?_map, hpers]
    rfl
  have h2 : (l.map Banknote.pose)[i']? = some b'.pose := by
    rw [← hmk, List.getElem?_map, hpre']
    simp [hppose']
  have hlen : i < (l.map Banknote.pose).length := by
    by_contra hge
    rw [List.getElem?_eq_none (Nat.le_of_not_lt hge)] at h1
    exact Option.noConfusion h1
  exact hii (List.getElem?_inj hlen hnd (by rw [h1, h2, hpose]))

lemma takeOut_none_of_exhausted (l : List Banknote)
    (hall : ∀ b ∈ l, b.is_available = true) (k : Nat) (hk : l.length ≤ k) :
    takeOut l k = none := by
  have hfe : l.filter (fun b => b.is_available) = l :=
    List.filter_eq_self.mpr (by intro a ha; simp [hall a ha])
  have hc : availCount l = l.length := by rw [availCount, hfe]
  have hle := takeSeq_availCount_le l k
  have hz : availCount (takeSeq l k) = 0 := by omega
  exact (gnab_none_iff _).mpr ((availCount_eq_zero_iff _).mp hz)

lemma reset_all_available (l : List Banknote) :
    ∀ b ∈ reset_availability_for_all_banknotes l, b.is_available = true := by
  intro b hb
  simp only [reset_availability_for_all_banknotes, List.mem_map] at hb
  obtain ⟨a, -, ha⟩ := hb
  rw [← ha]

lemma getLast?_map_eq {α β : Type} (f : α → β) (l : List α) :
    (l.map f).getLast? = (l.getLast?).map f := by
  induction l with
  | nil => rfl
  | cons a l ih =>
    cases l with
    | nil => rfl
    | cons b t => simpa using ih

lemma append_offset_preserves (l : List Banknote) (hne : l ≠ [])
    (hch : (l.map (fun b => b.pose.transformation_x)).Chain' (· < ·)) :
    append_offset_banknote l ≠ [] ∧
      ((append_offset_banknote l).map
        (fun b => b.pose.transformation_x)).Chain' (· < ·) := by
  cases hl : l.getLast? with
  | none =>
    exact absurd (List.getLast?_eq_none_iff.mp hl) hne
  | some last =>
    have hform : append_offset_banknote l =
        l ++ [{ last with
                pose := { last.pose with
                          transformation_x :=
                            last.pose.transformation_x + static_x_to_be_added } }] := by
      rw [append_offset_banknote, hl]
    rw [hform]
    constructor
    · simp
    · rw [List.map_append, List.chain'_append]
      refine ⟨hch, by simp, ?_⟩
      intro x hx y hy
      rw [getLast?_map_eq, hl] at hx
      simp at hx hy
      subst hx
      subst hy
      have hpos : (0 : ℚ) < static_x_to_be_added := by
        norm_num [static_x_to_be_added]
      linarith

lemma calculate_preserves (n : Nat) (l : List Banknote) (hne : l ≠ [])
    (hch : (l.map (fun b => b.pose.transformation_x)).Chain' (· < ·)) :
    calculate_pose_of_remaining_poses n l ≠ [] ∧
      ((calculate_pose_of_remaining_poses n l).map
        (fun b => b.pose.transformation_x)).Chain' (· < ·) := by
  induction n generalizing l with
  | zero => exact ⟨hne, hch⟩
  | succ n ih =>
    obtain ⟨hne2, hch2⟩ := append_offset_preserves l hne hch
    exact ih (append_offset_banknote l) hne2 hch2

lemma make_poses_nodup (p : BaxterPose) (side : Side) (n : Nat) :
    (((BanknotesOnTable.make p side n).banknotes).map Banknote.pose).Nodup := by
  have h := calculate_preserves n [{ pose := p, is_available := true }]
    (by simp) (by simp)
  have hp := List.chain'_iff_pairwise.mp h.2
  have hx : ((calculate_pose_of_remaining_poses n
      [{ pose := p, is_available := true }]).map
        (fun b => b.pose.transformation_x)).Nodup :=
    hp.imp (fun hlt => ne_of_lt hlt)
  have hcomp : ((calculate_pose_of_remaining_poses n
      [{ pose := p, is_available := true }]).map Banknote.pose).map
        (fun q => q.transformation_x)
      = (calculate_pose_of_remaining_poses n
          [{ pose := p, is_available := true }]).map
            (fun b => b.pose.transformation_x) := by
    rw [List.map_map]
    rfl
  simp only [BanknotesOnTable.make]
  apply List.Nodup.of_map (fun q : BaxterPose => q.transformation_x)
  rw [hcomp]
  exact hx

/-! ### Lemmas about the orchestrator step -/

lemma pick_none_spec (lt rt : BanknotesOnTable) (arm : Side)
    (hnone : (pick_banknote_from_table lt rt arm).picked = none) :
    pick_banknote_from_table lt rt arm =
      { picked := none, banknotes_table_left := lt, banknotes_table_right := rt,
        logged_no_banknote := true } := by
  cases arm
  case left =>
    have h1 : (get_next_available_banknote lt.banknotes).1 = none := by
      simpa [pick_banknote_from_table, Side.is_left] using hnone
    simp [pick_banknote_from_table, Side.is_left, h1, gnab_snd_of_none _ h1]
  case right =>
    have h1 : (get_next_available_banknote rt.banknotes).1 = none := by
      simpa [pick_banknote_from_table, Side.is_left] using hnone
    simp [pick_banknote_from_table, Side.is_left, h1, gnab_snd_of_none _ h1]

lemma interact_step_dispense (s : CashierState) (inp : IterInput)
    (h : s.amount_due < 0) :
    interact_with_customer_step s inp
      = (give_money_to_customer s).map DispenseResult.state := by
  simp [interact_with_customer_step, h]

lemma interact_step_collect_left (s : CashierState) (inp : IterInput)
    (lh rh : HandReading) (v : Int)
    (hpos : ¬ s.amount_due < 0)
    (hsvc : inp.service_poses = some (lh, rh))
    (hrec : inp.recognition_reply = some v)
    (hv : v ≠ -1)
    (hfresh : pose_is_outdated inp.now
        (baxter_pose_of_reading lh inp.pose_created) = false)
    (hreach : pose_is_reachable (baxter_pose_of_reading lh inp.pose_created)
        Side.right inp.reach = true) :
    interact_with_customer_step s inp =
      Except.ok
        { s with
          amount_due := s.amount_due - v,
          customer_last_pose :=
            some (baxter_pose_of_reading lh inp.pose_created, Side.right) } := by
  simp [interact_with_customer_step, hpos, hsvc, get_pose_from_space, hfresh,
        hreach, get_banknote_value, hrec, take_money_from_customer, hv, Except.map]

lemma run_eyes_steps_spec (l : List String) (flag : Nat → Bool) (i : Nat) :
    run_eyes_steps l flag i
      = (List.enumFrom i l).filterMap
          (fun p => if flag p.1 then none else some p.2) := by
  induction l generalizing i with
  | nil => rfl
  | cons f fs ih =>
    have he : List.enumFrom i (f :: fs) = (i, f) :: List.enumFrom (i + 1) fs := rfl
    rw [he, List.filterMap_cons]
    cases hf : flag i <;> simp [run_eyes_steps, hf, ih]

/-! ### The claims -/

/-- C1: the claim says a banknote-recognition outcome that is not a valid
denomination — the `-1` sentinel or a failed service call — is treated
identically (failure indicator shown, `amount_due` unchanged).  In the code
only the sentinel behaves that way: a failed service call makes
`get_banknote_value` return `None`, which passes the `banknote_value != -1`
test, so the one-bill-recognised image is shown and the routine then raises
`TypeError` at `int(None)` instead of displaying the failure indicator. -/
theorem c1_sentinel_vs_service_failure :
    (take_money_from_customer c1_state sample_hand_pose Side.right
        (get_banknote_value (some (-1)))
      = Except.ok (c1_state, ("unable_to_recognise.png")))
    ∧ (take_money_from_customer c1_state sample_hand_pose Side.right
        (get_banknote_value none)
      = Except.error (PyError.typeErrorIntOfNone ("one_bill_recognised.png"))) :=
  ⟨rfl, rfl⟩

/-- C2 counterexample: with every right-table slot unavailable and the right
arm cached, `give_money_to_customer` picks nothing and prints the log line,
yet still increments `amount_due` from -2 to -1 — the claim's "the ledger is
not mutated" is false on this input. -/
theorem c2_counterexample :
    c2_state.amount_due = -2
    ∧ (give_money_to_customer c2_state).map
        (fun r => (r.picked, r.logged_no_banknote, r.state.amount_due))
      = Except.ok (none, true, -1) :=
  ⟨rfl, rfl⟩

/-- C2 (amended): when no banknote is available, the pick sub-step is indeed
skipped after the log message and the inventories are left unchanged, but
`give_money_to_customer` still proceeds — it moves to the cached customer
pose, opens the gripper, and increments `amount_due` by the unit value 1
unconditionally; the ledger increment is not gated on a banknote having been
picked. -/
theorem c2_failed_pick_still_increments_ledger (s : CashierState)
    (pose : BaxterPose) (arm : Side)
    (hctx : s.customer_last_pose = some (pose, arm))
    (hnone : (pick_banknote_from_table s.banknotes_table_left
        s.banknotes_table_right arm).picked = none) :
    (give_money_to_customer s).map
        (fun r => (r.picked, r.logged_no_banknote, r.state.amount_due,
                   r.state.banknotes_table_left, r.state.banknotes_table_right))
      = Except.ok (none, true, s.amount_due + 1,
                   s.banknotes_table_left, s.banknotes_table_right) := by
  have hpick := pick_none_spec s.banknotes_table_left s.banknotes_table_right arm hnone
  simp [give_money_to_customer, hctx, hpick, Except.map]

/-- C2 witness: the amended statement applied to the exhausted concrete
state. -/
theorem c2_witness :
    c2_state.customer_last_pose = some (sample_hand_pose, Side.right)
    ∧ (pick_banknote_from_table c2_state.banknotes_table_left
        c2_state.banknotes_table_right Side.right).picked = none
    ∧ (give_money_to_customer c2_state).map
        (fun r => (r.picked, r.logged_no_banknote, r.state.amount_due,
                   r.state.banknotes_table_left, r.state.banknotes_table_right))
      = Except.ok (none, true, c2_state.amount_due + 1,
                   c2_state.banknotes_table_left, c2_state.banknotes_table_right) :=
  ⟨rfl, rfl,
   c2_failed_pick_still_increments_ledger c2_state sample_hand_pose Side.right rfl rfl⟩

/-- C3: the claim says a failed hand-pose service call makes the orchestrator
treat both poses as stale/empty for the cycle and re-sample next iteration.
In the code the `ServiceException` is caught and printed, but the local
variables `left_hand`/`right_hand` are then read unconditionally, raising
`UnboundLocalError`: the sensing call errors out and the iteration crashes
instead of continuing with empty poses. -/
theorem c3_pose_service_failure_crashes :
    (∀ created : ℚ,
        get_pose_from_space none created = Except.error PyError.unboundLocal)
    ∧ interact_with_customer_step c3_state c3_input
        = Except.error PyError.unboundLocal :=
  ⟨fun _ => rfl, rfl⟩

/-- C4: dispense dominance — whenever `amount_due < 0`, the iteration runs
`give_money_to_customer` no matter what the sensing input would have been
(even a crashing or fully reachable one), and the selected action is
`Dispense` regardless of pose inputs. -/
theorem c4_dispense_dominance (s : CashierState) (h : s.amount_due < 0) :
    (∀ inp : IterInput,
        interact_with_customer_step s inp
          = (give_money_to_customer s).map DispenseResult.state)
    ∧ (∀ (now : ℚ) (left_pose right_pose : BaxterPose)
          (reach : BaxterPose → Side → Bool),
        select_action s.amount_due now left_pose right_pose reach
          = IterAction.dispense) := by
  constructor
  · intro inp
    simp [interact_with_customer_step, h]
  · intro now lp rp reach
    simp [select_action, h]

/-- C4 witness: the dispense branch at the concrete negative-ledger state,
with an input in which both hand poses are fresh and reachable. -/
theorem c4_witness :
    c4_state.amount_due < 0
    ∧ interact_with_customer_step c4_state c4_input
        = (give_money_to_customer c4_state).map DispenseResult.state :=
  ⟨by decide, (c4_dispense_dominance c4_state (by decide)).1 c4_input⟩

/-- C5: cross-body mapping — in an iteration that reaches the collect checks
(non-negative ledger, poses not both stale), a reachable left-hand pose is
collected with the robot's right arm, never the left; and when the left check
fails, a reachable right-hand pose is collected with the robot's left arm. -/
theorem c5_cross_mapping (amount_due : Int) (now : ℚ)
    (left_pose right_pose : BaxterPose) (reach : BaxterPose → Side → Bool)
    (hpos : ¬ amount_due < 0)
    (hfresh : (pose_is_outdated now left_pose
        && pose_is_outdated now right_pose) = false) :
    (pose_is_reachable left_pose Side.right reach = true →
        select_action amount_due now left_pose right_pose reach
          = IterAction.collect left_pose Side.right
        ∧ select_action amount_due now left_pose right_pose reach
          ≠ IterAction.collect left_pose Side.left)
    ∧ (pose_is_reachable left_pose Side.right reach = false →
        pose_is_reachable right_pose Side.left reach = true →
        select_action amount_due now left_pose right_pose reach
          = IterAction.collect right_pose Side.left) := by
  constructor
  · intro hl
    constructor
    · simp [select_action, hpos, hfresh, hl]
    · simp [select_action, hpos, hfresh, hl]
  · intro hl hr
    simp [select_action, hpos, hfresh, hl, hr]

/-- C5 witness: with a positive ledger, a fresh non-empty left-hand pose and
an everything-reachable planner, the selected action is a collect of the
left-hand pose with the robot's right arm. -/
theorem c5_witness :
    (¬ (2 : Int) < 0)
    ∧ (pose_is_outdated 1 c5_left_pose && pose_is_outdated 1 c5_right_pose) = false
    ∧ pose_is_reachable c5_left_pose Side.right c5_reach = true
    ∧ select_action 2 1 c5_left_pose c5_right_pose c5_reach
        = IterAction.collect c5_left_pose Side.right := by
  have hfresh : (pose_is_outdated 1 c5_left_pose
      && pose_is_outdated 1 c5_right_pose) = false := by
    simp only [pose_is_outdated, c5_left_pose, c5_right_pose,
      Bool.and_eq_false_eq_eq_false_or_eq_false, decide_eq_false_iff_not]
    norm_num
  exact ⟨by decide, hfresh, by decide,
    ((c5_cross_mapping 2 1 c5_left_pose c5_right_pose c5_reach (by decide) hfresh).1
      (by decide)).1⟩

/-- C6: the staleness predicate returns true exactly when the pose's age is
strictly greater than 3 seconds, and returns false at an age of exactly 3
(the threshold is exclusive on the stale side). -/
theorem c6_staleness_boundary (now : ℚ) (pose : BaxterPose) :
    (pose_is_outdated now pose = true ↔ now - pose.created > 3)
    ∧ (now - pose.created = 3 → pose_is_outdated now pose = false) := by
  constructor
  · simp [pose_is_outdated]
  · intro h
    simp [pose_is_outdated, h]

/-- C6 witness: a pose whose age is exactly 3 at time 10 is not stale. -/
theorem c6_witness :
    (10 : ℚ) - c6_pose.created = 3 ∧ pose_is_outdated 10 c6_pose = false := by
  have h : (10 : ℚ) - c6_pose.created = 3 := by
    norm_num [c6_pose]
  exact ⟨h, (c6_staleness_boundary 10 c6_pose).2 h⟩

/-- C7: inventory monotonicity — a single call returns (and marks
unavailable) the first available slot in insertion order; two successful
calls never return a slot with the same pose before a reset (slot identity
is modelled by the slot's pose, and the last conjunct shows every inventory
built by the source's constructor has pairwise-distinct slot poses, each
offset +10cm from the previous); starting from an all-available inventory of
size N, every call from the N-th on returns none; and the reset makes every
slot available again. -/
theorem c7_inventory_monotonicity (l : List Banknote) :
    (∀ l₀ : List Banknote,
        (get_next_available_banknote l₀).1 =
          (l₀.find? (fun b => b.is_available)).map
            (fun b => { b with is_available := false }))
    ∧ ((l.map Banknote.pose).Nodup →
        ∀ j k, j < k → ∀ b b', takeOut l j = some b → takeOut l k = some b' →
          b.pose ≠ b'.pose)
    ∧ ((∀ b ∈ l, b.is_available = true) →
        ∀ k, l.length ≤ k → takeOut l k = none)
    ∧ (∀ l₀ : List Banknote, ∀ b ∈ reset_availability_for_all_banknotes l₀,
        b.is_available = true)
    ∧ (∀ (p : BaxterPose) (side : Side) (n : Nat),
        (((BanknotesOnTable.make p side n).banknotes).map Banknote.pose).Nodup) :=
  ⟨gnab_fst_eq_find,
   fun hnd j k hjk b b' hj hk => takeOut_pose_injective l hnd j k hjk b b' hj hk,
   fun hall k hk => takeOut_none_of_exhausted l hall k hk,
   fun l₀ => reset_all_available l₀,
   fun p side n => make_poses_nodup p side n⟩

/-- C7 witness: on a concrete all-available two-slot inventory with distinct
slot poses, the first two calls return banknotes with different poses and the
third call returns none. -/
theorem c7_witness :
    ((c7_inventory.map Banknote.pose).Nodup
      ∧ (∀ b ∈ c7_inventory, b.is_available = true)
      ∧ (0 : Nat) < 1 ∧ c7_inventory.length ≤ 2)
    ∧ takeOut c7_inventory 2 = none
    ∧ ∃ b b', takeOut c7_inventory 0 = some b ∧ takeOut c7_inventory 1 = some b'
        ∧ b.pose ≠ b'.pose := by
  refine ⟨⟨by decide, by decide, by decide, by decide⟩, ?_, ?_⟩
  · exact (c7_inventory_monotonicity c7_inventory).2.2.1 (by decide) 2 (by decide)
  · refine ⟨_, _, rfl, rfl, ?_⟩
    exact (c7_inventory_monotonicity c7_inventory).2.1 (by decide) 0 1 (by decide)
      _ _ rfl rfl

/-- C8: the full-cycle scenario — every dispense adds the fixed unit value 1
to the ledger whatever was collected; concretely, from `amount_due = 3` a
collect whose recognition returns 5 leaves the ledger at 3 - 5 = -2, two
dispenses then move it to -1 and 0, and at 0 the loop guard
`amount_due != 0` fails, ending the interaction (session settled). -/
theorem c8_full_cycle :
    (∀ (s : CashierState) (pose : BaxterPose) (arm : Side),
        s.customer_last_pose = some (pose, arm) →
        (give_money_to_customer s).map (fun r => r.state.amount_due)
          = Except.ok (s.amount_due + 1))
    ∧ c8_s0.amount_due = 3
    ∧ interact_with_customer_step c8_s0 c8_input = Except.ok c8_s1
    ∧ c8_s1.amount_due = 3 - 5
    ∧ interact_with_customer_step c8_s1 c8_input = Except.ok c8_s2
    ∧ c8_s2.amount_due = -1
    ∧ interact_with_customer_step c8_s2 c8_input = Except.ok c8_s3
    ∧ c8_s3.amount_due = 0
    ∧ ¬ (c8_s3.amount_due ≠ 0) := by
  have hfresh : pose_is_outdated c8_input.now
      (baxter_pose_of_reading c8_hand_left c8_input.pose_created) = false := by
    simp only [c8_input, baxter_pose_of_reading, c8_hand_left, pose_is_outdated,
      decide_eq_false_iff_not]
    norm_num
  refine ⟨?_, rfl, ?_, rfl, ?_, rfl, ?_, rfl, by decide⟩
  · intro s pose arm hctx
    simp [give_money_to_customer, hctx, Except.map]
  · rw [interact_step_collect_left c8_s0 c8_input c8_hand_left c8_hand_right 5
      (by decide) rfl rfl (by decide) hfresh (by decide)]
    rfl
  · rw [interact_step_dispense c8_s1 c8_input (by decide)]
    rfl
  · rw [interact_step_dispense c8_s2 c8_input (by decide)]
    rfl

/-- C8 witness: the per-dispense unit increment applied at the concrete
post-collect state. -/
theorem c8_witness :
    c8_s1.customer_last_pose = some (c8_left_pose, Side.right)
    ∧ (give_money_to_customer c8_s1).map (fun r => r.state.amount_due)
        = Except.ok (c8_s1.amount_due + 1) :=
  ⟨rfl, c8_full_cycle.1 c8_s1 c8_left_pose Side.right rfl⟩

/-- C9 counterexample: in the foreground trace of a collect, the unique write
of `false` to the completion flag comes after `start_background_task`, not
immediately before it as the claim states: the flag is cleared only inside
`get_banknote_value`, after the animation thread has already started. -/
theorem c9_counterexample :
    (take_money_events (some 1)).indexOf FgEvent.start_background_task
        < (take_money_events (some 1)).indexOf (FgEvent.set_flag false)
    ∧ FgEvent.start_background_task ∈ take_money_events (some 1)
    ∧ FgEvent.set_flag false ∈ take_money_events (some 1)
    ∧ (take_money_events (some 1)).count (FgEvent.set_flag false) = 1 := by
  decide

/-- C9 (amended): the idle-animation task is exactly five display-update
steps, the completion flag is checked before each step and a step runs only
on a `false` read; the foreground caller starts the background task first and
clears the completion flag as the first action of the blocking recognition
routine (immediately after the task launch, not before it), then sets the
flag to true after the blocking call returns, on success and on failure
alike; there are no other writes to the flag. -/
theorem c9_animation_and_flag_protocol :
    eyes_animation_images.length = 5
    ∧ (∀ flag : Nat → Bool,
        make_eyes_animated_reading_banknote flag
          = (List.enumFrom 0 eyes_animation_images).filterMap
              (fun p => if flag p.1 then none else some p.2))
    ∧ (∀ banknote_value : Option Int,
        take_money_events banknote_value
          = take_money_pre_events
            ++ get_banknote_value_events banknote_value.isSome
            ++ take_money_post_events banknote_value)
    ∧ take_money_pre_events.getLast? = some FgEvent.start_background_task
    ∧ (∀ service_ok : Bool,
        (get_banknote_value_events service_ok).head?
          = some (FgEvent.set_flag false))
    ∧ (∀ service_ok : Bool,
        (get_banknote_value_events service_ok).getLast?
          = some (FgEvent.set_flag true)
        ∧ FgEvent.call_service ∈ (get_banknote_value_events service_ok).dropLast)
    ∧ (∀ (banknote_value : Option Int) (b : Bool),
        FgEvent.set_flag b ∉ take_money_pre_events
        ∧ FgEvent.set_flag b ∉ take_money_post_events banknote_value) := by
  refine ⟨rfl, ?_, fun _ => rfl, rfl, ?_, ?_, ?_⟩
  · intro flag
    exact run_eyes_steps_spec eyes_animation_images flag 0
  · intro ok
    cases ok <;> rfl
  · intro ok
    cases ok <;> exact ⟨rfl, by decide⟩
  · intro bv b
    constructor
    · cases b <;> decide
    · cases bv with
      | none => simp [take_money_post_events]
      | some v =>
        simp only [take_money_post_events]
        split_ifs <;> simp

/-- C10: the implicit dispense precondition — `customer_last_pose` starts out
`None` (as `Cashier.__init__` leaves it), and entering the loop with a
negative ledger before any successful collect makes `give_money_to_customer`
fail at the unpacking of `customer_last_pose` instead of dispensing. -/
theorem c10_dispense_requires_prior_collect (lt rt : BanknotesOnTable)
    (s : CashierState) (inp : IterInput)
    (hctx : s.customer_last_pose = none) (hneg : s.amount_due < 0) :
    (cashier_init lt rt).customer_last_pose = none
    ∧ give_money_to_customer s = Except.error PyError.noneUnpack
    ∧ interact_with_customer_step s inp = Except.error PyError.noneUnpack := by
  refine ⟨rfl, ?_, ?_⟩
  · simp [give_money_to_customer, hctx]
  · simp [interact_with_customer_step, hneg, give_money_to_customer, hctx, Except.map]

/-- C10 witness: the crash at the concrete never-collected negative state. -/
theorem c10_witness :
    c10_state.customer_last_pose = none
    ∧ c10_state.amount_due < 0
    ∧ interact_with_customer_step c10_state c10_input
        = Except.error PyError.noneUnpack :=
  ⟨rfl, by decide,
   (c10_dispense_requires_prior_collect table_left_example table_right_example
      c10_state c10_input rfl (by decide)).2.2⟩

end BaxterCashier
